import Mathlib

/-!
Shallow embedding of the request/pagination/error-mapping engine of the
ConnectPyse-Manage repository (src/connectwise/client.py together with
src/connectwise/exceptions.py).

Conventions of the embedding:
* JSON values decoded by `response.json()` are modelled by the inductive
  `Json`.  JSON numbers are modelled as integers (no float appears in any
  claim); decoded objects are association lists without duplicate keys.
* A raw HTTP response is `HttpResponse`: its status code, the value of the
  `Retry-After` header (`response.headers.get`), the raw body text
  (`response.text`) and the result of `response.json()` — `some j` when the
  body parses as JSON, `none` when parsing raises.
* Python exceptions are `PyException`: the typed `ConnectWise*` error
  hierarchy of exceptions.py appears as the `typed` constructor carrying a
  `CWError`; the untyped `ValueError` of `int(...)`, `ZeroDivisionError` of
  `//`, and the JSON decode error of `response.json()` each get their own
  constructor.
* Fallible Python code is embedded as `Except PyException` values.
* Python `None` and the empty string are both falsy and are only ever tested
  for truthiness by this code; both are modelled as the empty string for the
  string-typed keyword arguments.
-/

namespace ConnectWise

/-- JSON values as decoded by Python's json module (numbers restricted to
integers, which is all the claims exercise). -/
inductive Json where
  | null
  | bool (b : Bool)
  | num (n : Int)
  | str (s : String)
  | arr (xs : List Json)
  | obj (fields : List (String × Json))
deriving Repr

/-- Python dict lookup `d.get(k)` on a decoded JSON object (association list
without duplicate keys). -/
def objGet (fs : List (String × Json)) (k : String) : Option Json :=
  match fs with
  | [] => none
  | (k0, v) :: rest => if k0 = k then some v else objGet rest k

/-- Whether a decoded JSON value is a Python dict. -/
def Json.isObj : Json → Bool
  | .obj _ => true
  | _ => false

/-- The single-quote character, used by Python repr of strings. -/
def squote : String := String.singleton (Char.ofNat 39)

/-- Escaping of one character inside a Python single-quoted string repr
(backslash and the quote character; other escapes are not exercised by the
code under verification). -/
def escapeChar (c : Char) : String :=
  if c = Char.ofNat 92 then String.mk [Char.ofNat 92, Char.ofNat 92]
  else if c = Char.ofNat 39 then String.mk [Char.ofNat 92, Char.ofNat 39]
  else String.singleton c

/-- Escaping of a string for Python repr. -/
def escapeRepr (s : String) : String :=
  String.join (s.data.map escapeChar)

/-- Python `repr` of a JSON-decoded value: dicts render with single-quoted
keys, lists with brackets, `None`/`True`/`False` capitalised.  (Python's
preference for double quotes when a string contains a single quote is not
modelled; no claim exercises it.) -/
def pyRepr : Json → String
  | Json.null => "None"
  | Json.bool true => "True"
  | Json.bool false => "False"
  | Json.num n => toString n
  | Json.str s => squote ++ escapeRepr s ++ squote
  | Json.arr xs => "[" ++ String.intercalate ", " (xs.attach.map (fun x => pyRepr x.1)) ++ "]"
  | Json.obj fs => "\x7b" ++ String.intercalate ", "
      (fs.attach.map (fun kv => squote ++ escapeRepr kv.1.1 ++ squote ++ ": " ++ pyRepr kv.1.2))
      ++ "\x7d"
decreasing_by
  · have := List.sizeOf_lt_of_mem x.2
    simp only [Json.arr.sizeOf_spec]
    omega
  · have h1 := List.sizeOf_lt_of_mem kv.2
    have h2 : sizeOf kv.1.2 < sizeOf kv.1 := by
      rcases kv.1 with ⟨a, b⟩
      simp only [Prod.mk.sizeOf_spec]
      omega
    simp only [Json.obj.sizeOf_spec]
    omega

/-- Python `str` of a JSON-decoded value: identical to `repr` except that a
top-level string renders without quotes. -/
def pyStr : Json → String
  | Json.str s => s
  | j => pyRepr j

/-- Python `int(s)` on a string: optional surrounding whitespace, optional
sign, then decimal digits; `none` models the `ValueError` raised otherwise.
(Python also accepts underscore digit grouping and some unicode spaces,
which no claim exercises.) -/
def pyInt (s : String) : Option Int :=
  match ((s.data.dropWhile Char.isWhitespace).reverse.dropWhile Char.isWhitespace).reverse with
  | [] => none
  | c :: cs =>
    if c = Char.ofNat 45 then
      (digitsVal cs).map (fun n => -(n : Int))
    else if c = Char.ofNat 43 then
      (digitsVal cs).map (fun n => (n : Int))
    else
      (digitsVal (c :: cs)).map (fun n => (n : Int))
where
  /-- Value of a nonempty all-digit character list. -/
  digitsVal : List Char → Option Nat
  | [] => none
  | cs =>
    if cs.all Char.isDigit then
      some (cs.foldl (fun a c => a * 10 + (c.toNat - 48)) 0)
    else none

/-- Python `int(v)` applied to a JSON-decoded value: ints pass through,
strings are parsed, bools coerce to 0/1; `None`, lists and dicts raise
`TypeError` (modelled as `none`, as is the string `ValueError`). -/
def pyIntCoerce : Json → Option Int
  | Json.num n => some n
  | Json.str s => pyInt s
  | Json.bool b => some (if b then 1 else 0)
  | _ => none

/-- One HTTP response as seen through the requests library: status code,
the `Retry-After` header if any, the raw text, and the result of
`response.json()` (`none` when the body is not valid JSON, in which case
`response.json()` raises). -/
structure HttpResponse where
  status : Nat
  retryAfter : Option String
  text : String
  jsonBody : Option Json

/-- requests' `Response.ok`: true exactly when `raise_for_status` would not
raise, i.e. when the status code is outside 400..599. -/
def responseOk (r : HttpResponse) : Bool :=
  decide (r.status < 400) || decide (600 ≤ r.status)

/-- Error kinds of exceptions.py (each a subclass of ConnectWiseAPIError). -/
inductive CWErrorKind where
  | notFound
  | authentication
  | badRequest
  | rateLimit
  | serverError
  | apiError
deriving DecidableEq, Repr

/-- A raised ConnectWise typed error: the constructor arguments of
ConnectWiseAPIError (and the `retry_after` of ConnectWiseRateLimitError,
`none` for every other kind). -/
structure CWError where
  kind : CWErrorKind
  message : String
  status_code : Nat
  retry_after : Option Int
  response_data : Option Json

/-- Python `str()` of a ConnectWiseAPIError: `[status] message` when the
status code is truthy (nonzero), the bare message otherwise. -/
def strForm (e : CWError) : String :=
  if e.status_code ≠ 0 then "[" ++ toString e.status_code ++ "] " ++ e.message
  else e.message

/-- A Python exception escaping the client: either one of the library's
typed errors, or one of the untyped exceptions its code can raise. -/
inductive PyException where
  | typed (e : CWError)
  | valueError (s : String)
  | zeroDivisionError
  | jsonDecodeError (s : String)

/-- Message extraction of `_handle_response_error`
(client.py lines 132-136):
`error_data = response.json(); error_message = error_data.get('message',
str(error_data))`, any exception (JSON decode failure, or `.get` on a
non-dict) falling back to `response.text or "HTTP <code> error"`. -/
def extractErrorMessage (r : HttpResponse) : String :=
  match r.jsonBody with
  | some (Json.obj fs) =>
    match objGet fs "message" with
    | some v => pyStr v
    | none => pyStr (Json.obj fs)
  | _ => if r.text = "" then "HTTP " ++ toString r.status ++ " error" else r.text

/-- The `error_data if 'error_data' in locals() else None` passed as
`response_data`: exactly the parse result of the body (present even when the
parsed value is not a dict, since `error_data` was assigned before `.get`
raised). -/
def responseData (r : HttpResponse) : Option Json := r.jsonBody

/-- ConnectWiseClient._handle_response_error (client.py lines 117-177),
as the exception it raises: 404 NotFound, 401 Authentication, 400
BadRequest, 429 RateLimit with `int(retry_after) if retry_after else None`
(the `int` call raising ValueError on a non-numeric nonempty header value),
>=500 ServerError, anything else the generic ConnectWiseAPIError. -/
def handleResponseError (r : HttpResponse) : PyException :=
  let msg := extractErrorMessage r
  let data := responseData r
  if r.status = 404 then
    .typed ⟨.notFound, msg, r.status, none, data⟩
  else if r.status = 401 then
    .typed ⟨.authentication, msg, r.status, none, data⟩
  else if r.status = 400 then
    .typed ⟨.badRequest, msg, r.status, none, data⟩
  else if r.status = 429 then
    match r.retryAfter with
    | none => .typed ⟨.rateLimit, msg, r.status, none, data⟩
    | some s =>
      if s = "" then .typed ⟨.rateLimit, msg, r.status, none, data⟩
      else
        match pyInt s with
        | some n => .typed ⟨.rateLimit, msg, r.status, some n, data⟩
        | none => .valueError s
  else if 500 ≤ r.status then
    .typed ⟨.serverError, msg, r.status, none, data⟩
  else
    .typed ⟨.apiError, msg, r.status, none, data⟩

/-- Whether the 429 branch of `_handle_response_error` would hit the
`int(retry_after)` ValueError: a present, nonempty, non-numeric header. -/
def retryAfterBad (r : HttpResponse) : Bool :=
  match r.retryAfter with
  | some s => (s != "") && (pyInt s).isNone
  | none => false

/-- A value placed in the outgoing query-parameter map of `get`. -/
inductive ParamValue where
  | str (s : String)
  | int (n : Int)
deriving DecidableEq, Repr

/-- The keyword arguments of ConnectWiseClient.get.  Python defaults:
empty strings for the text filters, `None` for pagesize and page (`None`
and `""` are interchangeable here, see the header comment). -/
structure GetArgs where
  conditions : String := ""
  childconditions : String := ""
  fields : String := ""
  pagesize : Option Int := none
  page : Option Int := none
  orderby : String := ""
deriving DecidableEq, Repr

/-- Query-parameter construction of `get` (client.py lines 202-215): each
key is included exactly when its argument is truthy (nonempty string,
non-None nonzero int), in source order. -/
def buildParams (a : GetArgs) : List (String × ParamValue) :=
  (if a.conditions ≠ "" then [("conditions", ParamValue.str a.conditions)] else []) ++
  (if a.childconditions ≠ "" then [("childconditions", ParamValue.str a.childconditions)] else []) ++
  (if a.fields ≠ "" then [("fields", ParamValue.str a.fields)] else []) ++
  (match a.pagesize with
   | some n => if n ≠ 0 then [("pagesize", ParamValue.int n)] else []
   | none => []) ++
  (if a.orderby ≠ "" then [("orderby", ParamValue.str a.orderby)] else []) ++
  (match a.page with
   | some n => if n ≠ 0 then [("page", ParamValue.int n)] else []
   | none => [])

/-- Response handling of `get` (client.py lines 220-228): 404 returns None,
other non-ok statuses raise via `_handle_response_error`, and the success
path returns `response.json()` — whose decode error escapes untyped when
the body is not JSON. -/
def getClassify (r : HttpResponse) : Except PyException (Option Json) :=
  if r.status = 404 then .ok none
  else if responseOk r = false then .error (handleResponseError r)
  else
    match r.jsonBody with
    | some j => .ok (some j)
    | none => .error (.jsonDecodeError r.text)

/-- Response handling of `put` (client.py lines 378-386), identical in shape
to that of `get`. -/
def putClassify (r : HttpResponse) : Except PyException (Option Json) :=
  if r.status = 404 then .ok none
  else if responseOk r = false then .error (handleResponseError r)
  else
    match r.jsonBody with
    | some j => .ok (some j)
    | none => .error (.jsonDecodeError r.text)

/-- Response handling of `patch` (client.py lines 315-323), identical in
shape to that of `get`. -/
def patchClassify (r : HttpResponse) : Except PyException (Option Json) :=
  if r.status = 404 then .ok none
  else if responseOk r = false then .error (handleResponseError r)
  else
    match r.jsonBody with
    | some j => .ok (some j)
    | none => .error (.jsonDecodeError r.text)

/-- Response handling of `post` (client.py lines 348-352): no 404
short-circuit — a 404 reaches `_handle_response_error`. -/
def postClassify (r : HttpResponse) : Except PyException Json :=
  if responseOk r = false then .error (handleResponseError r)
  else
    match r.jsonBody with
    | some j => .ok j
    | none => .error (.jsonDecodeError r.text)

/-- Response handling of `delete` (client.py lines 410-419): 404 returns
False, other non-ok statuses raise, success returns
`response.status_code == 204 or response.ok`. -/
def deleteClassify (r : HttpResponse) : Except PyException Bool :=
  if r.status = 404 then .ok false
  else if responseOk r = false then .error (handleResponseError r)
  else .ok (decide (r.status = 204) || responseOk r)

/-- The full `get` over an abstract HTTP transport `net` mapping an endpoint
and query-parameter list to a response. -/
def cwGet (net : String → List (String × ParamValue) → HttpResponse)
    (endpoint : String) (a : GetArgs) : Except PyException (Option Json) :=
  getClassify (net endpoint (buildParams a))

/-- The keyword arguments of ConnectWiseClient.get_all. -/
structure AllArgs where
  conditions : String := ""
  childconditions : String := ""
  fields : String := ""
  pagesize : Option Int := none
  orderby : String := ""
deriving DecidableEq, Repr

/-- Arguments of the count query of get_all (client.py lines 243-247): only
conditions and childconditions are forwarded (as `x if x else None`, which
builds the same query as the plain value). -/
def countArgsOf (a : AllArgs) : GetArgs :=
  { conditions := a.conditions, childconditions := a.childconditions }

/-- Arguments of the page-`p` query of get_all (client.py lines 265-273):
all supplied filters plus the current page number and the effective page
size. -/
def pageArgs (a : AllArgs) (pagesize p : Int) : GetArgs :=
  { conditions := a.conditions, childconditions := a.childconditions,
    fields := a.fields, pagesize := some pagesize, page := some p,
    orderby := a.orderby }

/-- Count extraction of get_all (client.py lines 253-256):
`int(ct.get("count", 0))` inside a try that catches AttributeError (non-dict
response), ValueError and TypeError (uncoercible value); `none` models the
caught exception. -/
def countOf (ct : Json) : Option Int :=
  match ct with
  | Json.obj fs =>
    match objGet fs "count" with
    | some v => pyIntCoerce v
    | none => some 0
  | _ => none

/-- Effective page size of get_all (client.py lines 258-259): only a Python
`None` (not a zero) is replaced by the default 1000. -/
def resolvedPagesize (a : AllArgs) : Int :=
  match a.pagesize with
  | none => 1000
  | some p => p

/-- Python's `range(a, b)` as a list of integers. -/
def pyRange (a b : Int) : List Int :=
  (List.range (b - a).toNat).map (fun i => a + Int.ofNat i)

/-- The page loop of get_all (client.py lines 261-285), threading the
accumulated records and the trace of issued (endpoint, arguments) requests:
a raised exception aborts, an absent page breaks, a list page extends the
accumulator, any other payload is appended as a single record. -/
def pagesLoop (fetch : String → GetArgs → Except PyException (Option Json))
    (endpoint : String) (a : AllArgs) (pagesize : Int) :
    List Int → List Json → List (String × GetArgs) →
    Except PyException (List Json) × List (String × GetArgs)
  | [], acc, tr => (Except.ok acc, tr)
  | p :: rest, acc, tr =>
    let tr1 := tr ++ [(endpoint, pageArgs a pagesize p)]
    match fetch endpoint (pageArgs a pagesize p) with
    | .error e => (Except.error e, tr1)
    | .ok none => (Except.ok acc, tr1)
    | .ok (some (Json.arr xs)) => pagesLoop fetch endpoint a pagesize rest (acc ++ xs) tr1
    | .ok (some j) => pagesLoop fetch endpoint a pagesize rest (acc ++ [j]) tr1

/-- ConnectWiseClient.get_all (client.py lines 230-285) over an abstract
`fetch` standing for `self.get`, returning both its result and the trace of
issued requests (count query first).  Python's floor division `//` is
`Int.fdiv`; a zero effective page size raises ZeroDivisionError there. -/
def get_all_run (fetch : String → GetArgs → Except PyException (Option Json))
    (endpoint : String) (a : AllArgs) :
    Except PyException (List Json) × List (String × GetArgs) :=
  let cReq := (endpoint ++ "/count", countArgsOf a)
  match fetch (endpoint ++ "/count") (countArgsOf a) with
  | .error e => (Except.error e, [cReq])
  | .ok none => (Except.ok [], [cReq])
  | .ok (some ct) =>
    match countOf ct with
    | none => (Except.ok [], [cReq])
    | some count =>
      let pagesize := resolvedPagesize a
      if pagesize = 0 then (Except.error PyException.zeroDivisionError, [cReq])
      else
        let totalPages := Int.fdiv (count + pagesize - 1) pagesize
        pagesLoop fetch endpoint a pagesize (pyRange 1 (totalPages + 1)) [] [cReq]

/-- The list returned (or exception raised) by get_all. -/
def get_all (fetch : String → GetArgs → Except PyException (Option Json))
    (endpoint : String) (a : AllArgs) : Except PyException (List Json) :=
  (get_all_run fetch endpoint a).1

/-- The requests issued by get_all, in order, the count query first. -/
def get_all_requests (fetch : String → GetArgs → Except PyException (Option Json))
    (endpoint : String) (a : AllArgs) : List (String × GetArgs) :=
  (get_all_run fetch endpoint a).2

/-- Modelled from the claim's words (C1): the per-page contribution — a list
page contributes its elements, any other payload contributes itself as a
one-element page. -/
def pageContribution (j : Json) : List Json :=
  match j with
  | Json.arr xs => xs
  | _ => [j]

/-- Modelled from the claim's words (C1): concatenation, in page order, of
every page's contribution before the first absent page. -/
def aggregateUntilAbsence : List (Option Json) → List Json
  | [] => []
  | none :: _ => []
  | some j :: rest => pageContribution j ++ aggregateUntilAbsence rest

/-- The retry_after value the 429 branch passes when it does not raise
ValueError: `int(retry_after) if retry_after else None`. -/
def retryAfterVal (r : HttpResponse) : Option Int :=
  match r.retryAfter with
  | none => none
  | some s => if s = "" then none else pyInt s

/-- A concrete fetch oracle for witnesses and counterexamples: the count
endpoint answers `ct`, every other request answers `page` applied to the
requested page number (absence when no page number was passed). -/
def pagedFetch (countEndpoint : String) (ct : Option Json) (page : Int → Option Json) :
    String → GetArgs → Except PyException (Option Json) := fun e a =>
  if e = countEndpoint then Except.ok ct
  else
    Except.ok (match a.page with
      | some p => page p
      | none => none)

/-- The page responses used in the C1 witness scenario: page 1 holds two
records, page 2 is absent. -/
def wRespC1 : Int → Option Json := fun p =>
  if p = 1 then some (Json.arr [Json.num 1, Json.num 2]) else none

/-! Helper lemmas about the page loop and ceiling division. -/

theorem pagesLoop_fst (fetch : String → GetArgs → Except PyException (Option Json))
    (e : String) (a : AllArgs) (P : Int) (resp : Int → Option Json) :
    ∀ l : List Int, (∀ p ∈ l, fetch e (pageArgs a P p) = Except.ok (resp p)) →
      ∀ (acc : List Json) (tr : List (String × GetArgs)),
      (pagesLoop fetch e a P l acc tr).1
        = Except.ok (acc ++ aggregateUntilAbsence (l.map resp)) := by
  intro l
  induction l with
  | nil => intro _ acc tr; simp [pagesLoop, aggregateUntilAbsence]
  | cons p rest ih =>
    intro h acc tr
    have hp : fetch e (pageArgs a P p) = Except.ok (resp p) :=
      h p (List.mem_cons_self p rest)
    have hrest := ih (fun q hq => h q (List.mem_cons_of_mem p hq))
    simp only [pagesLoop, hp, List.map_cons]
    cases hr : resp p with
    | none => simp [aggregateUntilAbsence]
    | some j =>
      cases j <;>
        simp [aggregateUntilAbsence, pageContribution, hrest, List.append_assoc]

theorem pagesLoop_snd (fetch : String → GetArgs → Except PyException (Option Json))
    (e : String) (a : AllArgs) (P : Int) :
    ∀ l : List Int, (∀ p ∈ l, ∃ j, fetch e (pageArgs a P p) = Except.ok (some j)) →
      ∀ (acc : List Json) (tr : List (String × GetArgs)),
      (pagesLoop fetch e a P l acc tr).2
        = tr ++ l.map (fun p => (e, pageArgs a P p)) := by
  intro l
  induction l with
  | nil => intro _ acc tr; simp [pagesLoop]
  | cons p rest ih =>
    intro h acc tr
    obtain ⟨j, hj⟩ := h p (List.mem_cons_self p rest)
    have hrest := ih (fun q hq => h q (List.mem_cons_of_mem p hq))
    simp only [pagesLoop, hj, List.map_cons]
    cases j <;> simp [hrest, List.append_assoc]

theorem pagesLoop_snd_prefix (fetch : String → GetArgs → Except PyException (Option Json))
    (e : String) (a : AllArgs) (P : Int) :
    ∀ (l : List Int) (acc : List Json) (tr : List (String × GetArgs)),
      ∃ rest, (pagesLoop fetch e a P l acc tr).2 = tr ++ rest := by
  intro l
  induction l with
  | nil => intro acc tr; exact ⟨[], by simp [pagesLoop]⟩
  | cons p rest ih =>
    intro acc tr
    simp only [pagesLoop]
    cases hf : fetch e (pageArgs a P p) with
    | error err => exact ⟨[(e, pageArgs a P p)], rfl⟩
    | ok v =>
      cases v with
      | none => exact ⟨[(e, pageArgs a P p)], rfl⟩
      | some j =>
        cases j <;>
          · obtain ⟨r2, hr2⟩ := ih _ (tr ++ [(e, pageArgs a P p)])
            exact ⟨[(e, pageArgs a P p)] ++ r2, by rw [hr2, List.append_assoc]⟩

theorem pyRange_length (a b : Int) : (pyRange a b).length = (b - a).toNat := by
  unfold pyRange
  rw [List.length_map, List.length_range]

theorem ceilDiv_bounds (C P : Int) (hP : 1 ≤ P) :
    P * (Int.fdiv (C + P - 1) P - 1) < C ∧ C ≤ P * Int.fdiv (C + P - 1) P := by
  have h0 : (0 : Int) < P := hP
  rw [Int.fdiv_eq_ediv _ (le_of_lt h0)]
  have hd := Int.ediv_add_emod (C + P - 1) P
  have h1 := Int.emod_nonneg (C + P - 1) (by omega : P ≠ 0)
  have h2 := Int.emod_lt_of_pos (C + P - 1) h0
  have hm : P * ((C + P - 1) / P - 1) = P * ((C + P - 1) / P) - P := by ring
  omega

theorem handle_bad (r : HttpResponse) (h429 : r.status = 429)
    (hbad : retryAfterBad r = true) :
    ∃ s, r.retryAfter = some s ∧ handleResponseError r = PyException.valueError s := by
  unfold retryAfterBad at hbad
  cases hra : r.retryAfter with
  | none => rw [hra] at hbad; cases hbad
  | some s =>
    rw [hra] at hbad
    simp only [Bool.and_eq_true, bne_iff_ne, ne_eq, Option.isNone_iff_eq_none] at hbad
    refine ⟨s, rfl, ?_⟩
    simp [handleResponseError, h429, hra, hbad.1, hbad.2]

theorem handle_typed_cases (r : HttpResponse)
    (h : ¬(r.status = 429 ∧ retryAfterBad r = true)) :
    ∃ e2, handleResponseError r = PyException.typed e2 := by
  unfold handleResponseError
  repeat' split
  all_goals try exact ⟨_, rfl⟩
  exfalso
  apply h
  refine ⟨by assumption, ?_⟩
  simp_all [retryAfterBad]

theorem handle_fields (r : HttpResponse) (e2 : CWError)
    (he2 : handleResponseError r = PyException.typed e2) :
    e2.message = extractErrorMessage r ∧ e2.status_code = r.status ∧
      e2.response_data = r.jsonBody := by
  unfold handleResponseError at he2
  repeat' split at he2
  all_goals first
    | (cases he2; exact ⟨rfl, rfl, rfl⟩)
    | (cases he2)

theorem pagesLoop_congr (fetch : String → GetArgs → Except PyException (Option Json))
    (e : String) (a a2 : AllArgs) (P : Int)
    (h1 : a.conditions = a2.conditions) (h2 : a.childconditions = a2.childconditions)
    (h3 : a.fields = a2.fields) (h4 : a.orderby = a2.orderby) :
    ∀ (l : List Int) (acc : List Json) (tr : List (String × GetArgs)),
      pagesLoop fetch e a P l acc tr = pagesLoop fetch e a2 P l acc tr := by
  have hpa : ∀ p, pageArgs a P p = pageArgs a2 P p := by
    intro p; simp [pageArgs, h1, h2, h3, h4]
  intro l
  induction l with
  | nil => intro acc tr; simp [pagesLoop]
  | cons p rest ih =>
    intro acc tr
    simp only [pagesLoop, hpa p]
    cases hf : fetch e (pageArgs a2 P p) with
    | error err => rfl
    | ok v =>
      cases v with
      | none => rfl
      | some j => cases j <;> simp [ih]

theorem get_all_run_congr (fetch : String → GetArgs → Except PyException (Option Json))
    (e : String) (a a2 : AllArgs)
    (h1 : a.conditions = a2.conditions) (h2 : a.childconditions = a2.childconditions)
    (h3 : a.fields = a2.fields) (h4 : a.orderby = a2.orderby)
    (h5 : resolvedPagesize a = resolvedPagesize a2) :
    get_all_run fetch e a = get_all_run fetch e a2 := by
  have hca : countArgsOf a = countArgsOf a2 := by simp [countArgsOf, h1, h2]
  unfold get_all_run
  rw [hca, h5]
  cases hf : fetch (e ++ "/count") (countArgsOf a2) with
  | error err => rfl
  | ok v =>
    cases v with
    | none => rfl
    | some ct =>
      dsimp only
      cases hc : countOf ct with
      | none => rfl
      | some count =>
        dsimp only
        by_cases hz : resolvedPagesize a2 = 0
        · simp only [if_pos hz]
        · simp only [if_neg hz]
          exact pagesLoop_congr fetch e a a2 (resolvedPagesize a2) h1 h2 h3 h4 _ [] _

theorem get_all_run_trace_cons (fetch : String → GetArgs → Except PyException (Option Json))
    (e : String) (a : AllArgs) :
    ∃ rest, (get_all_run fetch e a).2 = (e ++ "/count", countArgsOf a) :: rest := by
  unfold get_all_run
  cases hf : fetch (e ++ "/count") (countArgsOf a) with
  | error err => exact ⟨[], rfl⟩
  | ok v =>
    cases v with
    | none => exact ⟨[], rfl⟩
    | some ct =>
      dsimp only
      cases hc : countOf ct with
      | none => exact ⟨[], rfl⟩
      | some count =>
        dsimp only
        by_cases hz : resolvedPagesize a = 0
        · rw [if_pos hz]; exact ⟨[], rfl⟩
        · rw [if_neg hz]
          obtain ⟨rest, hr⟩ := pagesLoop_snd_prefix fetch e a (resolvedPagesize a)
            (pyRange 1 (Int.fdiv (count + resolvedPagesize a - 1) (resolvedPagesize a) + 1))
            [] [(e ++ "/count", countArgsOf a)]
          exact ⟨rest, by rw [hr]; rfl⟩

/-! Claim theorems. -/

/-- C4 counterexample: a 429 response whose Retry-After header is present,
nonempty and non-numeric makes `_handle_response_error` raise the untyped
ValueError of `int(...)`, not a RateLimit error, refuting the claim that a
RateLimit error (and no other kind of exception) propagates in every such
case. -/
theorem claim_C4_counterexample :
    handleResponseError ⟨429, some "abc", "busy", none⟩ = PyException.valueError "abc" := by
  rfl

/-- C4 (amended): on a 429 response, the raised error is a RateLimit error
whose retry-after value is the parsed integer when the header is present,
nonempty and numeric, and is absent when the header is missing or empty;
but when the header is present, nonempty and non-numeric, the untyped
ValueError of `int(...)` propagates instead of a RateLimit error.  The
header value "30" parses to 30. -/
theorem claim_C4 (r : HttpResponse) (h429 : r.status = 429) :
    (r.retryAfter = none →
      handleResponseError r = PyException.typed
        ⟨CWErrorKind.rateLimit, extractErrorMessage r, r.status, none, r.jsonBody⟩) ∧
    (r.retryAfter = some "" →
      handleResponseError r = PyException.typed
        ⟨CWErrorKind.rateLimit, extractErrorMessage r, r.status, none, r.jsonBody⟩) ∧
    (∀ s n, r.retryAfter = some s → s ≠ "" → pyInt s = some n →
      handleResponseError r = PyException.typed
        ⟨CWErrorKind.rateLimit, extractErrorMessage r, r.status, some n, r.jsonBody⟩) ∧
    (∀ s, r.retryAfter = some s → s ≠ "" → pyInt s = none →
      handleResponseError r = PyException.valueError s) ∧
    pyInt "30" = some 30 := by
  refine ⟨?_, ?_, ?_, ?_, by decide⟩
  · intro h; simp [handleResponseError, responseData, h429, h]
  · intro h; simp [handleResponseError, responseData, h429, h]
  · intro s n hs hne hn; simp [handleResponseError, responseData, h429, hs, hne, hn]
  · intro s hs hne hn; simp [handleResponseError, responseData, h429, hs, hne, hn]

/-- C4 witness: instantiating the amended claim at a concrete 429 response
with header value "30". -/
theorem claim_C4_witness :
    (⟨429, some "30", "busy", none⟩ : HttpResponse).status = 429 ∧
    handleResponseError ⟨429, some "30", "busy", none⟩ = PyException.typed
      ⟨CWErrorKind.rateLimit, "busy", 429, some 30, none⟩ := by
  refine ⟨rfl, ?_⟩
  exact (claim_C4 ⟨429, some "30", "busy", none⟩ rfl).2.2.1 "30" 30 rfl (by decide) (by decide)

/-- C5 counterexample: a 500 response whose body parses as a JSON object
without a "message" field yields a ServerError whose message is the Python
string rendering of the parsed dict, not the raw response text, refuting the
claim that the raw text is the fallback whenever the field is absent. -/
theorem claim_C5_counterexample :
    handleResponseError
        ⟨500, none, "\x7b\"code\": 5\x7d", some (Json.obj [("code", Json.num 5)])⟩
      = PyException.typed ⟨CWErrorKind.serverError, pyStr (Json.obj [("code", Json.num 5)]),
          500, none, some (Json.obj [("code", Json.num 5)])⟩ ∧
    pyStr (Json.obj [("code", Json.num 5)]) ≠ "\x7b\"code\": 5\x7d" := by
  refine ⟨rfl, ?_⟩
  simp only [pyStr, pyRepr, List.attach, List.attachWith, List.pmap, List.map]
  decide

/-- C5 (amended): the error message of a non-2xx response is chosen by this
ordered fallback chain: the "message" field of the JSON-parsed body when the
body parses as a JSON object and the field is present (the field value
itself when it is a string); otherwise, when the body parses as a JSON
object without that field, the Python string rendering of the parsed object
(not the raw text); otherwise — body not parseable as JSON, or parsed to a
non-object — the raw response text; and a synthesized message holding the
numeric status code when such a body is empty.  In particular a 500 response
with a non-JSON, non-empty body yields a ServerError whose message equals
the raw response text. -/
theorem claim_C5 (r : HttpResponse) :
    (∀ fs v, r.jsonBody = some (Json.obj fs) → objGet fs "message" = some v →
      extractErrorMessage r = pyStr v) ∧
    (∀ s, pyStr (Json.str s) = s) ∧
    (∀ fs, r.jsonBody = some (Json.obj fs) → objGet fs "message" = none →
      extractErrorMessage r = pyStr (Json.obj fs)) ∧
    (r.jsonBody = none →
      extractErrorMessage r
        = if r.text = "" then "HTTP " ++ toString r.status ++ " error" else r.text) ∧
    (∀ j, r.jsonBody = some j → j.isObj = false →
      extractErrorMessage r
        = if r.text = "" then "HTTP " ++ toString r.status ++ " error" else r.text) ∧
    (r.status = 500 → r.jsonBody = none → r.text ≠ "" →
      handleResponseError r = PyException.typed
        ⟨CWErrorKind.serverError, r.text, r.status, none, none⟩) := by
  refine ⟨?_, fun s => rfl, ?_, ?_, ?_, ?_⟩
  · intro fs v hb hm; simp [extractErrorMessage, hb, hm]
  · intro fs hb hm; simp [extractErrorMessage, hb, hm]
  · intro hb; simp [extractErrorMessage, hb]
  · intro j hb hobj
    cases j <;> simp_all [Json.isObj, extractErrorMessage]
  · intro h5 hb ht
    simp [handleResponseError, extractErrorMessage, responseData, h5, hb, ht]

/-- C5 witness: instantiating the amended claim at a concrete 500 response
with a non-JSON, non-empty body. -/
theorem claim_C5_witness :
    (⟨500, none, "oops", none⟩ : HttpResponse).jsonBody = none ∧
    handleResponseError ⟨500, none, "oops", none⟩ = PyException.typed
      ⟨CWErrorKind.serverError, "oops", 500, none, none⟩ := by
  refine ⟨rfl, ?_⟩
  exact (claim_C5 ⟨500, none, "oops", none⟩).2.2.2.2.2 rfl rfl (by decide)

/-- C8 counterexample: a 404 handled by the classification step (reachable
through `post`, which has no 404 short-circuit) yields a NotFound error, not
the Generic API error the claim assigns to statuses outside its enumerated
list; and a 429 with a present non-numeric Retry-After header raises an
untyped ValueError rather than the RateLimit error the claim promises. -/
theorem claim_C8_counterexample :
    postClassify ⟨404, none, "gone", none⟩
      = Except.error (PyException.typed ⟨CWErrorKind.notFound, "gone", 404, none, none⟩) ∧
    CWErrorKind.notFound ≠ CWErrorKind.apiError ∧
    handleResponseError ⟨429, some "soon", "busy", none⟩ = PyException.valueError "soon" := by
  exact ⟨rfl, by decide, rfl⟩

/-- C8 (amended): the classification step maps status 404 to NotFound, 401
to Authentication, 400 to BadRequest, 429 to RateLimit carrying the parsed
retry-after value — unless the Retry-After header is present, nonempty and
non-numeric, in which case an untyped ValueError propagates — >=500 to
ServerError, and every other status to the generic API error; every typed
error carries the extracted message, the numeric status code, and the parsed
response body (absent when the body did not parse as JSON), and for a
nonzero status its string form is the status code in brackets followed by
the message. -/
theorem claim_C8 (r : HttpResponse) :
    (r.status = 404 → handleResponseError r = PyException.typed
      ⟨CWErrorKind.notFound, extractErrorMessage r, r.status, none, r.jsonBody⟩) ∧
    (r.status = 401 → handleResponseError r = PyException.typed
      ⟨CWErrorKind.authentication, extractErrorMessage r, r.status, none, r.jsonBody⟩) ∧
    (r.status = 400 → handleResponseError r = PyException.typed
      ⟨CWErrorKind.badRequest, extractErrorMessage r, r.status, none, r.jsonBody⟩) ∧
    (r.status = 429 → retryAfterBad r = false → handleResponseError r = PyException.typed
      ⟨CWErrorKind.rateLimit, extractErrorMessage r, r.status, retryAfterVal r, r.jsonBody⟩) ∧
    (r.status = 429 → retryAfterBad r = true →
      ∃ s, r.retryAfter = some s ∧ handleResponseError r = PyException.valueError s) ∧
    (500 ≤ r.status → handleResponseError r = PyException.typed
      ⟨CWErrorKind.serverError, extractErrorMessage r, r.status, none, r.jsonBody⟩) ∧
    (r.status ≠ 404 → r.status ≠ 401 → r.status ≠ 400 → r.status ≠ 429 → r.status < 500 →
      handleResponseError r = PyException.typed
        ⟨CWErrorKind.apiError, extractErrorMessage r, r.status, none, r.jsonBody⟩) ∧
    (∀ e2, handleResponseError r = PyException.typed e2 →
      e2.message = extractErrorMessage r ∧ e2.status_code = r.status ∧
      e2.response_data = r.jsonBody ∧
      (r.status ≠ 0 → strForm e2 = "[" ++ toString r.status ++ "] " ++ extractErrorMessage r)) := by
  refine ⟨?_, ?_, ?_, ?_, ?_, ?_, ?_, ?_⟩
  · intro h; simp [handleResponseError, responseData, h]
  · intro h; simp [handleResponseError, responseData, h]
  · intro h; simp [handleResponseError, responseData, h]
  · intro h hgood
    unfold retryAfterBad at hgood
    cases hra : r.retryAfter with
    | none => simp [handleResponseError, responseData, retryAfterVal, h, hra]
    | some s =>
      rw [hra] at hgood
      dsimp only at hgood
      by_cases hse : s = ""
      · subst hse; simp [handleResponseError, responseData, retryAfterVal, h, hra]
      · have hbne : (s != "") = true := by simp [hse]
        rw [hbne, Bool.true_and] at hgood
        cases hpi : pyInt s with
        | none => rw [hpi] at hgood; simp at hgood
        | some n => simp [handleResponseError, responseData, retryAfterVal, h, hra, hse, hpi]
  · exact fun h hbad => handle_bad r h hbad
  · intro h
    have h404 : r.status ≠ 404 := by omega
    have h401 : r.status ≠ 401 := by omega
    have h400 : r.status ≠ 400 := by omega
    have h429 : r.status ≠ 429 := by omega
    simp [handleResponseError, responseData, h404, h401, h400, h429, h]
  · intro h404 h401 h400 h429 h500
    have h5 : ¬ (500 ≤ r.status) := by omega
    simp [handleResponseError, responseData, h404, h401, h400, h429, h5]
  · intro e2 he2
    obtain ⟨hm, hs, hd⟩ := handle_fields r e2 he2
    refine ⟨hm, hs, hd, ?_⟩
    intro h0
    simp [strForm, hs, hm, h0]

/-- C8 witness: instantiating the amended claim at a concrete 500
response. -/
theorem claim_C8_witness :
    (500 : Nat) ≤ 500 ∧
    handleResponseError ⟨500, none, "boom", none⟩ = PyException.typed
      ⟨CWErrorKind.serverError, "boom", 500, none, none⟩ := by
  refine ⟨by decide, ?_⟩
  exact (claim_C8 ⟨500, none, "boom", none⟩).2.2.2.2.2.1 (by decide)

/-- C6 counterexample: a 304 response — non-2xx and not 404 — raises no
error at all in `get` (the transport reports it as ok, so the success path
runs), and a 429 with a present non-numeric Retry-After header makes `get`
propagate an untyped ValueError; both refute the claim that every non-2xx
status other than 404 raises a typed error. -/
theorem claim_C6_counterexample :
    getClassify ⟨304, none, "\x7b\x7d", some (Json.obj [])⟩ = Except.ok (some (Json.obj [])) ∧
    getClassify ⟨429, some "nope", "busy", none⟩ = Except.error (PyException.valueError "nope") := by
  exact ⟨rfl, rfl⟩

/-- C6 (amended): a 404 response yields absence without error — `get`, `put`
and `patch` return None, `delete` returns False; every status in 400..599
other than 404 makes all four operations raise the exception built by the
classification step, which is one of the library's typed errors except for
a 429 whose Retry-After header is present, nonempty and non-numeric (an
untyped ValueError); and every status outside 400..599 — including non-2xx
ones such as 304 — is treated as success, so no error is raised there. -/
theorem claim_C6 (r : HttpResponse) :
    (r.status = 404 →
      getClassify r = Except.ok none ∧ putClassify r = Except.ok none ∧
      patchClassify r = Except.ok none ∧ deleteClassify r = Except.ok false) ∧
    (400 ≤ r.status → r.status < 600 → r.status ≠ 404 →
      getClassify r = Except.error (handleResponseError r) ∧
      putClassify r = Except.error (handleResponseError r) ∧
      patchClassify r = Except.error (handleResponseError r) ∧
      deleteClassify r = Except.error (handleResponseError r) ∧
      ((∃ e2, handleResponseError r = PyException.typed e2) ↔
        ¬ (r.status = 429 ∧ retryAfterBad r = true))) ∧
    (responseOk r = true → r.status ≠ 404 →
      getClassify r = (match r.jsonBody with
        | some j => Except.ok (some j)
        | none => Except.error (PyException.jsonDecodeError r.text))) := by
  refine ⟨?_, ?_, ?_⟩
  · intro h
    exact ⟨by simp [getClassify, h], by simp [putClassify, h],
      by simp [patchClassify, h], by simp [deleteClassify, h]⟩
  · intro hlo hhi h404
    have hok : responseOk r = false := by
      simp only [responseOk, Bool.or_eq_false_iff, decide_eq_false_iff_not]
      omega
    refine ⟨by simp [getClassify, h404, hok], by simp [putClassify, h404, hok],
      by simp [patchClassify, h404, hok], by simp [deleteClassify, h404, hok], ?_⟩
    constructor
    · rintro ⟨e2, he2⟩ ⟨h429, hbad⟩
      obtain ⟨s, _, hv⟩ := handle_bad r h429 hbad
      rw [hv] at he2
      cases he2
    · exact handle_typed_cases r
  · intro hok h404
    simp [getClassify, h404, hok]

/-- C6 witness: instantiating the amended claim at a concrete 404
response. -/
theorem claim_C6_witness :
    (⟨404, none, "", none⟩ : HttpResponse).status = 404 ∧
    getClassify ⟨404, none, "", none⟩ = Except.ok none ∧
    deleteClassify ⟨404, none, "", none⟩ = Except.ok false := by
  have h := (claim_C6 ⟨404, none, "", none⟩).1 rfl
  exact ⟨rfl, h.1, h.2.2.2⟩

/-- C10 (confirmed): on a 2xx response whose body is not parseable JSON,
`get`, `post`, `put` and `patch` all propagate the untyped JSON decode
error of `response.json()` — no payload is returned and none of the
library's typed errors is raised. -/
theorem claim_C10 (r : HttpResponse) (h2 : 200 ≤ r.status) (h3 : r.status < 300)
    (hb : r.jsonBody = none) :
    getClassify r = Except.error (PyException.jsonDecodeError r.text) ∧
    postClassify r = Except.error (PyException.jsonDecodeError r.text) ∧
    putClassify r = Except.error (PyException.jsonDecodeError r.text) ∧
    patchClassify r = Except.error (PyException.jsonDecodeError r.text) ∧
    (∀ e2, PyException.jsonDecodeError r.text ≠ PyException.typed e2) := by
  have h404 : r.status ≠ 404 := by omega
  have hok : responseOk r = true := by
    simp only [responseOk, Bool.or_eq_true, decide_eq_true_eq]
    omega
  refine ⟨by simp [getClassify, h404, hok, hb], by simp [postClassify, hok, hb],
    by simp [putClassify, h404, hok, hb], by simp [patchClassify, h404, hok, hb], ?_⟩
  intro e2 he2
  cases he2

/-- C10 witness: a concrete 200 response with the non-JSON body "hello". -/
theorem claim_C10_witness :
    (200 : Nat) ≤ 200 ∧ (200 : Nat) < 300 ∧
    getClassify ⟨200, none, "hello", none⟩
      = Except.error (PyException.jsonDecodeError "hello") := by
  refine ⟨by decide, by decide, ?_⟩
  exact (claim_C10 ⟨200, none, "hello", none⟩ (by decide) (by decide) rfl).1

theorem mem_map_fst_ite (cond : Prop) [Decidable cond] (k key : String) (v : ParamValue) :
    k ∈ List.map Prod.fst (if cond then [(key, v)] else []) ↔ k = key ∧ cond := by
  split_ifs with h <;> simp [h]

theorem mem_pair_ite (cond : Prop) [Decidable cond] (kv : String × ParamValue)
    (key : String) (v : ParamValue) :
    kv ∈ (if cond then [(key, v)] else []) ↔ kv = (key, v) ∧ cond := by
  split_ifs with h <;> simp [h]

/-- C9 (confirmed): the outgoing query of a single `get` holds exactly the
optional filters that were supplied truthy — a key appears iff its argument
is a nonempty string (conditions, childconditions, fields, orderby) or a
non-None nonzero integer (pagesize, page), carrying exactly the supplied
value — so a call with no optional filters produces zero parameters; and
the count query of `get_all` forwards at most conditions and
childconditions (never fields, orderby, page or pagesize), and is the first
request `get_all` issues. -/
theorem claim_C9 :
    (∀ (a : GetArgs) (k : String),
      k ∈ (buildParams a).map Prod.fst ↔
        ((k = "conditions" ∧ a.conditions ≠ "") ∨
         (k = "childconditions" ∧ a.childconditions ≠ "") ∨
         (k = "fields" ∧ a.fields ≠ "") ∨
         (k = "pagesize" ∧ ∃ n, a.pagesize = some n ∧ n ≠ 0) ∨
         (k = "orderby" ∧ a.orderby ≠ "") ∨
         (k = "page" ∧ ∃ n, a.page = some n ∧ n ≠ 0))) ∧
    (∀ a : GetArgs,
      (("conditions", ParamValue.str a.conditions) ∈ buildParams a ↔ a.conditions ≠ "") ∧
      (("childconditions", ParamValue.str a.childconditions) ∈ buildParams a ↔
        a.childconditions ≠ "") ∧
      (("fields", ParamValue.str a.fields) ∈ buildParams a ↔ a.fields ≠ "") ∧
      (∀ n, a.pagesize = some n → (("pagesize", ParamValue.int n) ∈ buildParams a ↔ n ≠ 0)) ∧
      (("orderby", ParamValue.str a.orderby) ∈ buildParams a ↔ a.orderby ≠ "") ∧
      (∀ n, a.page = some n → (("page", ParamValue.int n) ∈ buildParams a ↔ n ≠ 0))) ∧
    buildParams {} = [] ∧
    (∀ a : AllArgs,
      (buildParams (countArgsOf a)).map Prod.fst ⊆ ["conditions", "childconditions"]) ∧
    (∀ (fetch : String → GetArgs → Except PyException (Option Json)) (e : String) (a : AllArgs),
      (get_all_run fetch e a).2.head? = some (e ++ "/count", countArgsOf a)) := by
  refine ⟨?_, ?_, rfl, ?_, ?_⟩
  · intro a k
    rcases a with ⟨c, cc, f, ps, pg, ob⟩
    cases ps <;> cases pg <;>
      simp [buildParams, List.mem_append, mem_map_fst_ite] <;> tauto
  · intro a
    rcases a with ⟨c, cc, f, ps, pg, ob⟩
    refine ⟨?_, ?_, ?_, ?_, ?_, ?_⟩
    · cases ps <;> cases pg <;> simp [buildParams, List.mem_append, mem_pair_ite]
    · cases ps <;> cases pg <;> simp [buildParams, List.mem_append, mem_pair_ite]
    · cases ps <;> cases pg <;> simp [buildParams, List.mem_append, mem_pair_ite]
    · intro n hn
      simp only at hn
      subst hn
      cases pg <;> simp [buildParams, List.mem_append, mem_pair_ite]
    · cases ps <;> cases pg <;> simp [buildParams, List.mem_append, mem_pair_ite]
    · intro n hn
      simp only at hn
      subst hn
      cases ps <;> simp [buildParams, List.mem_append, mem_pair_ite]
  · intro a k hk
    simp [buildParams, countArgsOf, List.mem_append, mem_map_fst_ite] at hk
    rcases hk with ⟨_, rfl⟩ | ⟨_, rfl⟩ <;> simp
  · intro fetch e a
    obtain ⟨rest, hr⟩ := get_all_run_trace_cons fetch e a
    rw [hr]
    rfl

/-- C9 witness: instantiating the parameter characterization at a call with
one filter and at a call with no filters. -/
theorem claim_C9_witness :
    ("x" : String) ≠ "" ∧
    "conditions" ∈ (buildParams { conditions := "x" }).map Prod.fst ∧
    buildParams {} = [] := by
  refine ⟨by decide, ?_, claim_C9.2.2.1⟩
  exact (claim_C9.1 { conditions := "x" } "conditions").mpr (Or.inl ⟨rfl, by decide⟩)

/-- C1 counterexample: the code never truncates a page to the remaining
count — with count 1 the single requested page may return two records and
get_all returns both, so the result is not "between 0 and C records". -/
theorem claim_C1_counterexample :
    countOf (Json.obj [("count", Json.num 1)]) = some 1 ∧
    get_all (pagedFetch "k/count" (some (Json.obj [("count", Json.num 1)]))
        (fun _ => some (Json.arr [Json.null, Json.null]))) "k" {}
      = Except.ok [Json.null, Json.null] ∧
    ([Json.null, Json.null] : List Json).length = 2 := by
  exact ⟨rfl, rfl, rfl⟩

/-- C1 (amended): for every count C >= 0, effective page size P >= 1, and
any sequence of page responses each yielding a payload or the absence
signal, the list returned by get_all equals exactly the concatenation, in
ascending page order, of every page's contribution before the first absent
page — a list page contributing its elements in order and any other payload
contributing itself as a one-element page — with no re-sorting or
de-duplication; the result length is the sum of those contributions, and
may exceed C when a page returns more records than its share. -/
theorem claim_C1 (fetch : String → GetArgs → Except PyException (Option Json))
    (e : String) (a : AllArgs) (ct : Json) (C P : Int) (resp : Int → Option Json)
    (hct : fetch (e ++ "/count") (countArgsOf a) = Except.ok (some ct))
    (hC : countOf ct = some C) (hC0 : 0 ≤ C)
    (hP : resolvedPagesize a = P) (hP1 : 1 ≤ P)
    (hresp : ∀ p ∈ pyRange 1 (Int.fdiv (C + P - 1) P + 1),
      fetch e (pageArgs a P p) = Except.ok (resp p)) :
    get_all fetch e a
      = Except.ok (aggregateUntilAbsence
          ((pyRange 1 (Int.fdiv (C + P - 1) P + 1)).map resp)) := by
  have hPz : ¬ (P = 0) := by omega
  unfold get_all get_all_run
  rw [hct]
  dsimp only
  rw [hC]
  dsimp only
  rw [hP, if_neg hPz]
  rw [pagesLoop_fst fetch e a P resp _ hresp [] [(e ++ "/count", countArgsOf a)]]
  simp

/-- C1 witness: count 3 at page size 2 requests pages 1 and 2; page 1 holds
two records and page 2 is absent, so the result is exactly page 1's
records. -/
theorem claim_C1_witness :
    countOf (Json.obj [("count", Json.num 3)]) = some 3 ∧
    resolvedPagesize { pagesize := some 2 } = 2 ∧
    get_all (pagedFetch "w/count" (some (Json.obj [("count", Json.num 3)])) wRespC1) "w"
        { pagesize := some 2 }
      = Except.ok [Json.num 1, Json.num 2] := by
  refine ⟨rfl, rfl, ?_⟩
  have h := claim_C1 (pagedFetch "w/count" (some (Json.obj [("count", Json.num 3)])) wRespC1)
    "w" { pagesize := some 2 } (Json.obj [("count", Json.num 3)]) 3 2 wRespC1
    rfl rfl (by decide) rfl (by decide) (fun p _ => rfl)
  rw [h]
  rfl

/-- C2 (confirmed): with a parsed count C >= 0 and caller-supplied page size
P >= 1, and every requested page returning a payload, get_all issues the
count query followed by exactly ceil(C/P) page requests, for pages 1 through
ceil(C/P) in strictly ascending order, each carrying all supplied filters
plus the page number and page size; the code's `(C + P - 1) // P` is
exactly the ceiling of C/P. -/
theorem claim_C2 (fetch : String → GetArgs → Except PyException (Option Json))
    (e : String) (a : AllArgs) (ct : Json) (C P : Int)
    (hct : fetch (e ++ "/count") (countArgsOf a) = Except.ok (some ct))
    (hC : countOf ct = some C) (hC0 : 0 ≤ C)
    (hP : a.pagesize = some P) (hP1 : 1 ≤ P)
    (hpages : ∀ p ∈ pyRange 1 (Int.fdiv (C + P - 1) P + 1),
      ∃ j, fetch e (pageArgs a P p) = Except.ok (some j)) :
    get_all_requests fetch e a
      = (e ++ "/count", countArgsOf a)
        :: (pyRange 1 (Int.fdiv (C + P - 1) P + 1)).map (fun p => (e, pageArgs a P p)) ∧
    (pyRange 1 (Int.fdiv (C + P - 1) P + 1)).length = (Int.fdiv (C + P - 1) P).toNat ∧
    (P * (Int.fdiv (C + P - 1) P - 1) < C ∧ C ≤ P * Int.fdiv (C + P - 1) P) := by
  have hres : resolvedPagesize a = P := by simp [resolvedPagesize, hP]
  have hPz : ¬ (P = 0) := by omega
  refine ⟨?_, ?_, ceilDiv_bounds C P hP1⟩
  · unfold get_all_requests get_all_run
    rw [hct]
    dsimp only
    rw [hC]
    dsimp only
    rw [hres, if_neg hPz]
    rw [pagesLoop_snd fetch e a P _ hpages [] [(e ++ "/count", countArgsOf a)]]
    simp
  · rw [pyRange_length]
    omega

/-- C2 witness: the concrete scenario of the spec — count 2500 at page size
1000 issues exactly the page requests 1, 2, 3 after the count query. -/
theorem claim_C2_witness :
    countOf (Json.obj [("count", Json.num 2500)]) = some 2500 ∧
    get_all_requests (pagedFetch "t/count" (some (Json.obj [("count", Json.num 2500)]))
        (fun _ => some (Json.arr []))) "t" { pagesize := some 1000 }
      = [("t/count", countArgsOf { pagesize := some 1000 }),
         ("t", pageArgs { pagesize := some 1000 } 1000 1),
         ("t", pageArgs { pagesize := some 1000 } 1000 2),
         ("t", pageArgs { pagesize := some 1000 } 1000 3)] := by
  refine ⟨rfl, ?_⟩
  have h := claim_C2 (pagedFetch "t/count" (some (Json.obj [("count", Json.num 2500)]))
      (fun _ => some (Json.arr []))) "t" { pagesize := some 1000 }
      (Json.obj [("count", Json.num 2500)]) 2500 1000
      rfl rfl (by decide) rfl (by decide) (fun p _ => ⟨Json.arr [], rfl⟩)
  rw [h.1]
  rfl

/-- C3 counterexample: a caller-supplied page size of zero is not replaced
by the default 1000 — once the count parses (here to 0), get_all raises
ZeroDivisionError instead of completing normally. -/
theorem claim_C3_counterexample :
    get_all (pagedFetch "z/count" (some (Json.obj [("count", Json.num 0)])) (fun _ => none))
        "z" { pagesize := some 0 }
      = Except.error PyException.zeroDivisionError := by
  rfl

/-- C3 (amended): only an unsupplied (None) page size falls back to the
default 1000 — get_all then behaves exactly as with an explicit 1000; a
caller-supplied page size of zero is kept, and whenever the count response
parses to an integer the page-count division raises ZeroDivisionError. -/
theorem claim_C3 :
    (∀ (fetch : String → GetArgs → Except PyException (Option Json)) (e : String) (a : AllArgs),
      get_all_run fetch e { a with pagesize := none }
        = get_all_run fetch e { a with pagesize := some 1000 }) ∧
    (∀ (fetch : String → GetArgs → Except PyException (Option Json)) (e : String)
        (a : AllArgs) (ct : Json) (C : Int),
      a.pagesize = some 0 →
      fetch (e ++ "/count") (countArgsOf a) = Except.ok (some ct) →
      countOf ct = some C →
      get_all fetch e a = Except.error PyException.zeroDivisionError) := by
  constructor
  · intro fetch e a
    exact get_all_run_congr fetch e _ _ rfl rfl rfl rfl rfl
  · intro fetch e a ct C hps hct hC
    unfold get_all get_all_run
    rw [hct]
    dsimp only
    rw [hC]
    dsimp only
    have hres : resolvedPagesize a = 0 := by simp [resolvedPagesize, hps]
    rw [hres]
    rfl

/-- C3 witness: instantiating the amended claim — with page size zero and a
count response parsing to 5, get_all raises ZeroDivisionError. -/
theorem claim_C3_witness :
    ({ pagesize := some 0 } : AllArgs).pagesize = some 0 ∧
    get_all (pagedFetch "z2/count" (some (Json.obj [("count", Json.num 5)])) (fun _ => none))
        "z2" { pagesize := some 0 }
      = Except.error PyException.zeroDivisionError := by
  refine ⟨rfl, ?_⟩
  exact claim_C3.2 _ "z2" { pagesize := some 0 } (Json.obj [("count", Json.num 5)]) 5 rfl rfl rfl

/-- C7 counterexample: with a supplied page size of zero, a count response
without a "count" field (which coerces to 0) makes get_all raise
ZeroDivisionError instead of returning the empty list; and with a negative
page size, a count of 0 issues one page request instead of zero. -/
theorem claim_C7_counterexample :
    countOf (Json.obj []) = some 0 ∧
    get_all (pagedFetch "q/count" (some (Json.obj [])) (fun _ => none)) "q" { pagesize := some 0 }
      = Except.error PyException.zeroDivisionError ∧
    (get_all_requests (pagedFetch "q2/count" (some (Json.obj [("count", Json.num 0)]))
        (fun _ => some (Json.arr []))) "q2" { pagesize := some (-5) }).length = 2 := by
  exact ⟨rfl, rfl, rfl⟩

/-- C7 (amended): get_all never raises on account of the count response when
the supplied page size is unspecified or at least 1: an absent (404) count
response, a count response that is not a dict or whose count value is not
coercible to an integer, and a coerced count of 0 each yield the empty list
with zero page requests — the first two unconditionally, the coerced-0 case
under the page-size proviso (a zero page size raises ZeroDivisionError
there, and a negative one issues a page request). -/
theorem claim_C7 (fetch : String → GetArgs → Except PyException (Option Json))
    (e : String) (a : AllArgs) :
    (fetch (e ++ "/count") (countArgsOf a) = Except.ok none →
      get_all_run fetch e a = (Except.ok [], [(e ++ "/count", countArgsOf a)])) ∧
    (∀ ct, fetch (e ++ "/count") (countArgsOf a) = Except.ok (some ct) → countOf ct = none →
      get_all_run fetch e a = (Except.ok [], [(e ++ "/count", countArgsOf a)])) ∧
    ((a.pagesize = none ∨ ∃ P, a.pagesize = some P ∧ 1 ≤ P) →
      ∀ ct, fetch (e ++ "/count") (countArgsOf a) = Except.ok (some ct) → countOf ct = some 0 →
      get_all_run fetch e a = (Except.ok [], [(e ++ "/count", countArgsOf a)])) := by
  refine ⟨?_, ?_, ?_⟩
  · intro h
    unfold get_all_run
    rw [h]
  · intro ct hct hc
    unfold get_all_run
    rw [hct]
    dsimp only
    rw [hc]
  · intro hP ct hct hc
    have hres : 1 ≤ resolvedPagesize a := by
      rcases hP with h | ⟨P, hp, h1⟩
      · simp [resolvedPagesize, h]
      · simp only [resolvedPagesize, hp]
        exact h1
    unfold get_all_run
    rw [hct]
    dsimp only
    rw [hc]
    dsimp only
    have hz : ¬ (resolvedPagesize a = 0) := by omega
    rw [if_neg hz]
    have ht : Int.fdiv (0 + resolvedPagesize a - 1) (resolvedPagesize a) = 0 := by
      rw [Int.fdiv_eq_ediv _ (by omega)]
      apply Int.ediv_eq_zero_of_lt <;> omega
    rw [ht]
    rfl

/-- C7 witness: a count value that is a non-numeric string coerces to
nothing, and get_all returns the empty list after only the count query. -/
theorem claim_C7_witness :
    countOf (Json.obj [("count", Json.str "x")]) = none ∧
    get_all_run (pagedFetch "w7/count" (some (Json.obj [("count", Json.str "x")])) (fun _ => none))
        "w7" {}
      = (Except.ok [], [("w7" ++ "/count", countArgsOf {})]) := by
  refine ⟨rfl, ?_⟩
  exact (claim_C7 (pagedFetch "w7/count" (some (Json.obj [("count", Json.str "x")]))
    (fun _ => none)) "w7" {}).2.1 (Json.obj [("count", Json.str "x")]) rfl rfl

end ConnectWise
